import Mathlib

/-!
Verification of the NY tax-credit dashboard's data pipeline.

The development shallowly embeds the server route `src/app/api/ny-credits/route.ts`
(the variant that resolves columns from the metadata endpoint with a sample-row
fallback) and the Socrata client (the variant whose primary endpoint is the v3
query API with an auth-gated SoQL fallback).  JavaScript numbers are modelled as
either a finite rational or one of the non-finite values NaN / +Infinity /
-Infinity; JavaScript strings are Lean strings; nullable values are `Option`s,
with `none` standing for null/undefined where only one of the two can occur and
a dedicated constructor where both matter.  Network responses are inputs to the
embedded functions.
-/

namespace NYCredits

/-- The single-quote character, used as the SoQL string-literal delimiter. -/
def sq : Char := Char.ofNat 39

/-- The double-quote character, used to quote SoQL identifiers and CSV fields. -/
def dq : Char := Char.ofNat 34

/-- String form of `sq`. -/
def sqS : String := String.singleton sq

/-- String form of `dq`. -/
def dqS : String := String.singleton dq

/-- A JavaScript number: a finite double (modelled as an exact rational) or one
of the three non-finite values. -/
inductive JsNum where
  | nan : JsNum
  | posInf : JsNum
  | negInf : JsNum
  | finite (q : ℚ) : JsNum
deriving DecidableEq, Repr

/-- `Number.isFinite`. -/
def JsNum.isFiniteJs : JsNum → Bool
  | .finite _ => true
  | _ => false

/-- A JavaScript value as it can reach the numeric coercion in the route:
null, undefined, a number, a string, or a boolean. -/
inductive JsValue where
  | null : JsValue
  | undefined : JsValue
  | num (n : JsNum) : JsValue
  | str (s : String) : JsValue
  | bool (b : Bool) : JsValue
deriving DecidableEq, Repr

/-- The JavaScript `Number(value)` conversion.  Its behaviour on strings is
taken as a parameter `conv` (the embedded code never depends on it): numbers
convert to themselves, `null` to `0`, `undefined` to `NaN`, booleans to 0/1. -/
def jsNumberOf (conv : String → JsNum) : JsValue → JsNum
  | .null => .finite 0
  | .undefined => .nan
  | .num n => n
  | .str s => conv s
  | .bool b => .finite (if b then 1 else 0)

/-- Embedding of `toNumber` (route.ts): null/undefined short-circuit to 0,
otherwise `Number(value)` with any non-finite result replaced by 0. -/
def toNumber (conv : String → JsNum) (v : JsValue) : JsNum :=
  match v with
  | .null => .finite 0
  | .undefined => .finite 0
  | _ =>
    match jsNumberOf conv v with
    | .finite q => .finite q
    | _ => .finite 0

/-- The rational carried by a `toNumber` result (it is always finite). -/
def toNumberQ (conv : String → JsNum) (v : JsValue) : ℚ :=
  match toNumber conv v with
  | .finite q => q
  | _ => 0

/-- Embedding of `computeUtilization` (route.ts): `claimed` falsy (i.e. zero,
the only falsy finite rational) yields 0, otherwise `used / claimed * 100`. -/
def computeUtilization (claimed used : ℚ) : ℚ :=
  if claimed = 0 then 0 else used / claimed * 100

/-- Digits-to-number accumulator for `parseIntJs`. -/
def digitsVal (acc : Nat) : List Char → Nat
  | [] => acc
  | c :: rest => digitsVal (acc * 10 + (c.toNat - 48)) rest

/-- Embedding of `Number.parseInt(s, 10)`: skip leading whitespace, an optional
sign, then the longest run of decimal digits; `none` models a `NaN` result
(no digits found). -/
def parseIntJs (s : String) : Option Int :=
  let l := s.data.dropWhile (fun c => c.isWhitespace)
  let signNeg : Bool := match l with
    | c :: _ => c = Char.ofNat 45
    | [] => false
  let l2 : List Char := match l with
    | c :: rest => if c = Char.ofNat 45 || c = Char.ofNat 43 then rest else l
    | [] => []
  let digits := l2.takeWhile (fun c => c.isDigit)
  if digits.isEmpty then none
  else some (if signNeg then -(digitsVal 0 digits : Int) else (digitsVal 0 digits : Int))

/-- A yearly aggregate as built in the route's JSON branch; `year` is the
`Number.parseInt` of the row's year value (`none` = `NaN`). -/
structure YearlyAggregate where
  year : Option Int
  claimed : ℚ
  used : ℚ
  utilizationPct : ℚ
deriving DecidableEq, Repr

/-- Embedding of the yearly-row construction in `GET` (route.ts): coerce
claimed/used with `toNumber`, parse the year, and attach
`computeUtilization` of the coerced amounts.  `yearStr` is `String(yearValue)`. -/
def mkYearlyRow (conv : String → JsNum) (yearStr : String)
    (claimedValue usedValue : JsValue) : YearlyAggregate :=
  let claimed := toNumberQ conv claimedValue
  let used := toNumberQ conv usedValue
  { year := parseIntJs yearStr
    claimed := claimed
    used := used
    utilizationPct := computeUtilization claimed used }

/-- A normalized raw row as built in the route's `view=raw` branch (the year
and program are passed through untouched, so only the numeric fields appear). -/
structure RawRow where
  claimed : ℚ
  used : ℚ
  utilizationPct : ℚ
deriving DecidableEq, Repr

/-- Embedding of the raw-row construction in `GET` (route.ts). -/
def mkRawRow (conv : String → JsNum) (claimedValue usedValue : JsValue) : RawRow :=
  let claimed := toNumberQ conv claimedValue
  let used := toNumberQ conv usedValue
  { claimed := claimed, used := used, utilizationPct := computeUtilization claimed used }

/-- Grand totals of the response payload. -/
structure Totals where
  claimed : ℚ
  used : ℚ
  utilizationPct : ℚ
deriving DecidableEq, Repr

/-- Embedding of the totals construction in `GET` (route.ts): reduce the yearly
rows' claimed/used and compute utilization from the grand totals. -/
def mkTotals (yearly : List YearlyAggregate) : Totals :=
  let totalClaimed := yearly.foldl (fun sum row => sum + row.claimed) 0
  let totalUsed := yearly.foldl (fun sum row => sum + row.used) 0
  { claimed := totalClaimed
    used := totalUsed
    utilizationPct := computeUtilization totalClaimed totalUsed }

/-- The `for (let year = minYear; year <= maxYear; year += 1)` loop in `GET`
that pushes each year of the inclusive range. -/
def yearLoop (minYear maxYear : Int) : List Int :=
  if minYear > maxYear then []
  else minYear :: yearLoop (minYear + 1) maxYear
termination_by (maxYear + 1 - minYear).toNat
decreasing_by
  simp only [not_lt] at *
  omega

/-- Embedding of the `meta.years` computation in `GET` (route.ts): keep the
finite years of the yearly rows, and when any remain, enumerate the integers
from their minimum to their maximum. -/
def metaYears (yearValues : List (Option Int)) : List Int :=
  let years := yearValues.filterMap id
  match years with
  | [] => []
  | y :: rest => yearLoop (rest.foldl min y) (rest.foldl max y)

/-- Modelled from the spec: "the metadata year list is the contiguous integer
range from min to max observed year"; when no finite year is observed the list
is empty. -/
def specYearRange (yearValues : List (Option Int)) : List Int :=
  let years := yearValues.filterMap id
  match years with
  | [] => []
  | y :: rest =>
    let lo := rest.foldl min y
    let hi := rest.foldl max y
    (List.range (hi + 1 - lo).toNat).map (fun i : Nat => lo + (i : Int))

/-- JavaScript truthiness of a `string | undefined` value: defined and
non-empty. -/
def strTruthy : Option String → Bool
  | some s => s ≠ ""
  | none => false

/-- JavaScript `a || b` on `string | undefined` values. -/
def jsOr (a b : Option String) : Option String :=
  if strTruthy a then a else b

/-- Embedding of `sanitizeValue` (route.ts): the global regex replacement of
every single-quote by two single-quotes, character by character. -/
def sanitizeValue (s : String) : String :=
  ⟨s.data.flatMap (fun c => if c = sq then [c, c] else [c])⟩

/-- The resolved column map: `year` is a plain string (`""` = unresolved, as in
the TypeScript, where the field is typed `string` and set to `""` on failure);
the other roles are `string | undefined`. -/
structure ColumnMap where
  year : String
  claimed : Option String
  used : Option String
  program : Option String
  taxpayerType : Option String
deriving DecidableEq, Repr

/-- Parsed request parameters.  A year bound is `none` when the parameter was
absent, `some none` when `Number.parseInt` produced `NaN`, and `some (some n)`
otherwise; `view` and `format` keep their raw string values. -/
structure ParsedParams where
  yearFrom : Option (Option Int)
  yearTo : Option (Option Int)
  program : Option (List String)
  taxpayerType : Option String
  view : String
  format : String
deriving DecidableEq, Repr

/-- Embedding of `parseSearchParams` (route.ts); each argument is the
`searchParams.get(...)` result (`none` = the parameter is missing). -/
def parseSearchParams (yearFrom yearTo programParam taxpayerTypeParam
    viewParam formatParam : Option String) : ParsedParams :=
  { yearFrom := if strTruthy yearFrom then some (parseIntJs (yearFrom.getD "")) else none
    yearTo := if strTruthy yearTo then some (parseIntJs (yearTo.getD "")) else none
    program :=
      if strTruthy programParam then
        some ((((programParam.getD "").splitOn ",").map String.trim).filter (fun v => v ≠ ""))
      else none
    taxpayerType :=
      if strTruthy taxpayerTypeParam then some (taxpayerTypeParam.getD "").trim else none
    view := (jsOr viewParam (some "agg")).getD ""
    format := (jsOr formatParam (some "json")).getD "" }

/-- Template-literal rendering of a year bound (`NaN` prints as `"NaN"`). -/
def showYearBound : Option Int → String
  | none => "NaN"
  | some n => toString n

/-- Joins a list of strings with a separator, as `Array.prototype.join`. -/
def joinWith (sep : String) : List String → String
  | [] => ""
  | [x] => x
  | x :: xs => x ++ sep ++ joinWith sep xs

/-- Embedding of `buildWhereClauses` (route.ts): one clause pushed per active
filter, in source order. -/
def buildWhereClauses (params : ParsedParams) (columns : ColumnMap) : List String :=
  (match params.yearFrom with
    | some yf => [dqS ++ columns.year ++ dqS ++ " >= " ++ showYearBound yf]
    | none => []) ++
  (match params.yearTo with
    | some yt => [dqS ++ columns.year ++ dqS ++ " <= " ++ showYearBound yt]
    | none => []) ++
  (match params.program with
    | some progs =>
      if progs.length > 0 && strTruthy columns.program then
        [dqS ++ columns.program.getD "" ++ dqS ++ " IN (" ++
          joinWith ", " (progs.map (fun v => sqS ++ sanitizeValue v ++ sqS)) ++ ")"]
      else []
    | none => []) ++
  (if strTruthy params.taxpayerType && strTruthy columns.taxpayerType then
    [dqS ++ columns.taxpayerType.getD "" ++ dqS ++ " = " ++
      sqS ++ sanitizeValue (params.taxpayerType.getD "") ++ sqS]
  else [])

/-- Embedding of `buildWhere` (route.ts). -/
def buildWhere (params : ParsedParams) (columns : ColumnMap) : String :=
  let clauses := buildWhereClauses params columns
  if clauses.length > 0 then "WHERE " ++ joinWith " AND " clauses else ""

/-- Embedding of `buildRawSelect` (route.ts): unresolved claimed/used columns
become the literal `0`, unresolved program/taxpayer columns the literal `NULL`. -/
def buildRawSelect (columns : ColumnMap) : String :=
  let claimedExpr := match columns.claimed with
    | some c => if c ≠ "" then dqS ++ c ++ dqS else "0"
    | none => "0"
  let usedExpr := match columns.used with
    | some c => if c ≠ "" then dqS ++ c ++ dqS else "0"
    | none => "0"
  let programExpr := match columns.program with
    | some c => if c ≠ "" then dqS ++ c ++ dqS else "NULL"
    | none => "NULL"
  let taxpayerExpr := match columns.taxpayerType with
    | some c => if c ≠ "" then dqS ++ c ++ dqS else "NULL"
    | none => "NULL"
  "SELECT " ++ dqS ++ columns.year ++ dqS ++ " AS year, " ++ programExpr ++
    " AS program, " ++ claimedExpr ++ " AS claimed, " ++ usedExpr ++
    " AS used, " ++ taxpayerExpr ++ " AS taxpayer_type"

/-- The `COALESCE` aggregation expression used for claimed/used sums in the
JSON branch of `GET`: `0` when the column is unresolved. -/
def aggExpr (column : Option String) : String :=
  if strTruthy column then "COALESCE(" ++ dqS ++ column.getD "" ++ dqS ++ ", 0)" else "0"

/-- `String.prototype.includes` for a single-character needle. -/
def hasChar (s : String) (c : Char) : Bool := s.data.contains c

/-- Character-by-character embedding of `stringValue.replace(/"/g, '""')`. -/
def dupQuotes (s : String) : String :=
  ⟨s.data.flatMap (fun c => if c = dq then [c, c] else [c])⟩

/-- Embedding of the per-field CSV serialization in `GET` (route.ts):
null/undefined render as the empty field; a field whose string form contains a
comma or a double quote is wrapped in double quotes with internal double quotes
doubled; anything else is emitted verbatim.  The argument is the field's
`String(value)` form (`none` = null/undefined). -/
def csvField (v : Option String) : String :=
  match v with
  | none => ""
  | some s =>
    if hasChar s ',' || hasChar s dq then dqS ++ dupQuotes s ++ dqS else s

/-- One CSV row: the five field values in header order, each already in
`String(value)` form (`none` = null/undefined). -/
structure CsvRow where
  year : Option String
  program : Option String
  claimed : Option String
  used : Option String
  taxpayerType : Option String
deriving DecidableEq, Repr

/-- The fixed CSV header pushed first in the CSV branch of `GET`. -/
def csvHeader : String := "year,program,claimed,used,taxpayer_type"

/-- Embedding of the CSV line construction in `GET` (route.ts). -/
def csvLineOf (row : CsvRow) : String :=
  joinWith ","
    [csvField row.year, csvField row.program, csvField row.claimed,
      csvField row.used, csvField row.taxpayerType]

/-- The list `csvLines` accumulated in the CSV branch of `GET`. -/
def csvLines (rows : List CsvRow) : List String :=
  csvHeader :: rows.map csvLineOf

/-- Embedding of `csvLines.join("\n")`. -/
def csvContent (rows : List CsvRow) : String :=
  joinWith "\n" (csvLines rows)

/-- Does `pat` occur as a contiguous run inside `l`?  (`regex.test` for a plain
word pattern.) -/
def containsRun (l pat : List Char) : Bool :=
  match l with
  | [] => pat.isEmpty
  | _ :: t => pat.isPrefixOf l || containsRun t pat

/-- The remainder of `l` after the first occurrence of `pat`, if any. -/
def afterRun (l pat : List Char) : Option (List Char) :=
  match l with
  | [] => if pat.isEmpty then some [] else none
  | _ :: t => if pat.isPrefixOf l then some (l.drop pat.length) else afterRun t pat

/-- The lower-cased character list of a string (`toLowerCase` of the ASCII
column identifiers the heuristics run on). -/
def lowerData (s : String) : List Char := s.data.map Char.toLower

/-- `regex.test` for a pattern of the form `(a|b).*c` (case-insensitive):
some occurrence of `a` or of `b` is followed, anywhere later, by `c`. -/
def testEitherThen (s : String) (a b c : String) : Bool :=
  let t := lowerData s
  (match afterRun t a.data with
    | some rest => containsRun rest c.data
    | none => false) ||
  (match afterRun t b.data with
    | some rest => containsRun rest c.data
    | none => false)

/-- `regex.test` for a plain alternation `(w₁|w₂|...)` (case-insensitive). -/
def testAnyWord (s : String) (words : List String) : Bool :=
  let t := lowerData s
  words.any (fun w => containsRun t w.data)

/-- `YEAR_REGEX.test`: `/(calendar|tax).*year/i`. -/
def yearTest (s : String) : Bool := testEitherThen s "calendar" "tax" "year"

/-- `CLAIMED_REGEX.test`: `/(claimed|amount|value|approved)/i`. -/
def claimedTest (s : String) : Bool :=
  testAnyWord s ["claimed", "amount", "value", "approved"]

/-- `USED_REGEX.test`: `/(used|utilized|applied)/i`. -/
def usedTest (s : String) : Bool := testAnyWord s ["used", "utilized", "applied"]

/-- `PROGRAM_REGEX.test`: `/(program|credit.*name|credit.*type|description)/i`. -/
def programTest (s : String) : Bool :=
  testAnyWord s ["program", "description"] ||
    testEitherThen s "credit" "credit" "name" || testEitherThen s "credit" "credit" "type"

/-- `TAXPAYER_REGEX.test`: `/(taxpayer|entity).*type/i`. -/
def taxpayerTest (s : String) : Bool := testEitherThen s "taxpayer" "entity" "type"

/-- A Socrata column descriptor: optional machine field name and display name. -/
structure SocrataColumn where
  fieldName : Option String
  name : Option String
deriving DecidableEq, Repr

/-- Embedding of `findColumnFromList` (route.ts) on column descriptors: the
first candidate whose field name or display name matches wins; a field-name
match returns the field name, a display-name match returns `fieldName ?? name`. -/
def findColumnFromCols (test : String → Bool) : List SocrataColumn → Option String
  | [] => none
  | c :: rest =>
    if test (c.fieldName.getD "") then some (c.fieldName.getD "")
    else if test (c.name.getD "") then some (c.fieldName.getD (c.name.getD ""))
    else findColumnFromCols test rest

/-- Embedding of `findColumnFromList` (route.ts) on plain string candidates
(the sample-row key fallback). -/
def findColumnFromKeys (test : String → Bool) : List String → Option String
  | [] => none
  | k :: rest => if test k then some k else findColumnFromKeys test rest

/-- The environment a cache-missing `getColumnMap` call consults: the result of
`fetchSocrataMetadata` (`Except.error` = the fetch threw; the success value is
the view's optional column list, read as `metadata.columns ?? []`) and the
result of the `SELECT * LIMIT 1` sample query, reduced to the key list of its
first mapped row (`[]` when the sample has no rows). -/
structure ResolveEnv where
  metadataResult : Except Unit (Option (List SocrataColumn))
  sampleResult : Except Unit (List String)
deriving Repr

/-- The metadata-pass column map of `getColumnMap` (route.ts), before the
sample fallback. -/
def metadataPass (env : ResolveEnv) : ColumnMap :=
  let columns : List SocrataColumn := match env.metadataResult with
    | .ok m => m.getD []
    | .error _ => []
  { year := (findColumnFromCols yearTest columns).getD ""
    claimed := findColumnFromCols claimedTest columns
    used := findColumnFromCols usedTest columns
    program := findColumnFromCols programTest columns
    taxpayerType := findColumnFromCols taxpayerTest columns }

/-- The `needsFallback` test of `getColumnMap` (route.ts). -/
def needsFallback (m : ColumnMap) : Bool :=
  m.year = "" || !strTruthy m.claimed || !strTruthy m.used || !strTruthy m.program

/-- The sample-row fallback merge of `getColumnMap` (route.ts): each still-falsy
role is retried against the sample keys (a thrown sample query is caught and
leaves the map unchanged). -/
def applyFallback (m : ColumnMap) (sampleResult : Except Unit (List String)) : ColumnMap :=
  match sampleResult with
  | .error _ => m
  | .ok keys =>
    { year := if m.year ≠ "" then m.year else (findColumnFromKeys yearTest keys).getD ""
      claimed := jsOr m.claimed (findColumnFromKeys claimedTest keys)
      used := jsOr m.used (findColumnFromKeys usedTest keys)
      program := jsOr m.program (findColumnFromKeys programTest keys)
      taxpayerType := jsOr m.taxpayerType (findColumnFromKeys taxpayerTest keys) }

/-- The column map after the metadata pass and (when needed) the sample
fallback — the map `getColumnMap` inspects before its year check. -/
def resolvedMap (env : ResolveEnv) : ColumnMap :=
  let m := metadataPass env
  if needsFallback m then applyFallback m env.sampleResult else m

/-- Cache-miss body of `getColumnMap` (route.ts): resolve, then fail when no
year column was identified. -/
def resolveColumnMap (env : ResolveEnv) : Except String ColumnMap :=
  let m := resolvedMap env
  if m.year = "" then .error "Unable to identify year column in Socrata dataset"
  else .ok m

/-- Embedding of `getColumnMap` (route.ts) with its module-level
`cachedColumnMap` made explicit: the call maps a cache state to a result, a new
cache state, and the number of upstream requests issued (metadata fetch plus
possible sample query). -/
def getColumnMap (cache : Option ColumnMap) (env : ResolveEnv) :
    Except String ColumnMap × Option ColumnMap × Nat :=
  match cache with
  | some m => (.ok m, some m, 0)
  | none =>
    let requests := 1 + (if needsFallback (metadataPass env) then 1 else 0)
    match resolveColumnMap env with
    | .ok m => (.ok m, some m, requests)
    | .error e => (.error e, none, requests)

/-- Boolean success test for an `Except`. -/
def exceptOk {ε α : Type} : Except ε α → Bool
  | .ok _ => true
  | .error _ => false

/-- Modelled from the spec: the year role "after all fallback steps" — the
metadata-resolved year column when one exists, otherwise the sample-resolved
one (empty when the sample query failed or matched nothing). -/
def specYearAfterFallback (env : ResolveEnv) : String :=
  let metaYear := (metadataPass env).year
  if metaYear ≠ "" then metaYear
  else
    match env.sampleResult with
    | .error _ => ""
    | .ok keys => (findColumnFromKeys yearTest keys).getD ""

/-- An HTTP failure as thrown by `fetchJson`: the response status (0 when the
thrown value carried no `status` property) and the error message. -/
structure HttpErr where
  status : Nat
  message : String
deriving DecidableEq, Repr

/-- `buildHeaders` (socrataV3): the app token, from the first truthy of the two
environment variables; the `X-App-Token` header is attached iff it is
non-empty. -/
def effectiveToken (tokenEnv tokenEnvPublic : String) : String :=
  if tokenEnv ≠ "" then tokenEnv else tokenEnvPublic

/-- Embedding of `socrataQuery` (socrataV3): given whether a token header was
attached and the outcomes of the primary (v3) and fallback (SoQL) requests,
produce the result and whether the fallback endpoint was attempted.  The
fallback outcome is only consulted when the fallback is attempted. -/
def socrataQuery {α : Type} (hasToken : Bool)
    (primary fallback : Except HttpErr α) : Except String α × Bool :=
  match primary with
  | .ok v => (.ok v, false)
  | .error e =>
    if e.status ≠ 0 && e.status ≠ 401 && e.status ≠ 403 then
      (.error ("Socrata request failed (" ++ toString e.status ++ "): " ++ e.message), false)
    else if e.status ≠ 0 && (e.status = 401 || e.status = 403) && !hasToken then
      match fallback with
      | .ok v => (.ok v, true)
      | .error fe =>
        (.error ("Socrata request failed (" ++ toString e.status ++
          ") without an app token and fallback query failed (" ++ toString fe.status ++
          "): " ++ fe.message), true)
    else
      (.error ("Socrata request failed (" ++
        (if e.status ≠ 0 then toString e.status else "unknown") ++ "): " ++ e.message), false)

/-- One group of the top-programs aggregation: its first-encounter position,
its (nullable) program key, and its summed claimed amount. -/
structure PEntry where
  idx : Nat
  program : Option String
  claimed : ℚ
deriving DecidableEq, Repr

/-- The distinct program keys of a row list, in first-encounter order. -/
def keysInOrder (rows : List (Option String × ℚ)) : List (Option String) :=
  rows.foldl (fun acc r => if r.1 ∈ acc then acc else acc ++ [r.1]) []

/-- The summed claimed amount of one program key (`COALESCE` has already turned
null amounts into 0, so each row carries a rational). -/
def sumFor (rows : List (Option String × ℚ)) (k : Option String) : ℚ :=
  ((rows.filter (fun r => r.1 = k)).map (fun r => r.2)).sum

/-- Indexes a key list into `PEntry`s starting at `i`. -/
def entriesFrom (rows : List (Option String × ℚ)) : Nat → List (Option String) → List PEntry
  | _, [] => []
  | i, k :: ks => ⟨i, k, sumFor rows k⟩ :: entriesFrom rows (i + 1) ks

/-- Modelled from the spec: the external query service's `GROUP BY` evaluation
— one group per distinct program key in encounter order, each with the sum of
the claimed expression over its rows. -/
def groupPrograms (rows : List (Option String × ℚ)) : List PEntry :=
  entriesFrom rows 0 (keysInOrder rows)

/-- The order the service's `ORDER BY claimed DESC` (with ties left in stable,
i.e. encounter, order) sorts groups into: larger sums first, equal sums by
first-encounter position. -/
def rankLE (a b : PEntry) : Prop :=
  b.claimed < a.claimed ∨ (a.claimed = b.claimed ∧ a.idx ≤ b.idx)

instance : DecidableRel rankLE := fun a b => by
  unfold rankLE; infer_instance

instance : IsTotal PEntry rankLE where
  total a b := by
    unfold rankLE
    rcases lt_trichotomy a.claimed b.claimed with h | h | h
    · exact .inr (.inl h)
    · rcases Nat.le_total a.idx b.idx with hi | hi
      · exact .inl (.inr ⟨h, hi⟩)
      · exact .inr (.inr ⟨h.symm, hi⟩)
    · exact .inl (.inl h)

instance : IsTrans PEntry rankLE where
  trans a b c hab hbc := by
    unfold rankLE at *
    rcases hab with h1 | ⟨e1, i1⟩
    · rcases hbc with h2 | ⟨e2, i2⟩
      · exact .inl (h2.trans h1)
      · exact .inl (e2 ▸ h1)
    · rcases hbc with h2 | ⟨e2, i2⟩
      · exact .inl (e1 ▸ h2)
      · exact .inr ⟨e1.trans e2, i1.trans i2⟩

/-- Modelled from the spec: the service's `ORDER BY claimed DESC LIMIT 10`
applied to the grouped sums (a stable descending sort, truncated to 10). -/
def rankPrograms (rows : List (Option String × ℚ)) : List PEntry :=
  (List.insertionSort rankLE (groupPrograms rows)).take 10

/-- The `programValue ?? "Unknown"` bucketing applied to each ranked row in
`GET` (route.ts). -/
def programLabel (program : Option String) : String :=
  program.getD "Unknown"

/-- One entry of the response's `topPrograms` list. -/
structure ProgramTotal where
  program : String
  claimed : ℚ
deriving DecidableEq, Repr

/-- Embedding of the `topPrograms` construction in `GET` (route.ts), composed
with the modelled remote evaluation: map each ranked group through the
`?? "Unknown"` bucketing (the subsequent non-null filter keeps every mapped
row, since the label is never null). -/
def topProgramsOut (rows : List (Option String × ℚ)) : List ProgramTotal :=
  (rankPrograms rows).map (fun e => ⟨programLabel e.program, e.claimed⟩)

/-- Scanner for `sqEscaped`: `pending` records that the previous character was
an unmatched single-quote which must be completed by a second one. -/
def sqEscapedAux : List Char → Bool → Bool
  | [], pending => !pending
  | c :: rest, pending =>
    if pending then c = sq && sqEscapedAux rest false
    else if c = sq then sqEscapedAux rest true
    else sqEscapedAux rest false

/-- Checks that every single-quote in a character list is immediately followed
by a second single-quote (which is then consumed): the string can be embedded
in a SoQL single-quoted literal without terminating it. -/
def sqEscaped (l : List Char) : Bool := sqEscapedAux l false

/-- Modelled from the spec: the number of active filters of a request — a year
lower bound, a year upper bound, a non-empty program list with a resolved
program column, a taxpayer type with a resolved taxpayer-type column. -/
def specActiveCount (p : ParsedParams) (c : ColumnMap) : Nat :=
  (if p.yearFrom.isSome then 1 else 0) + (if p.yearTo.isSome then 1 else 0) +
  (if (match p.program with
        | some l => l.length > 0 && strTruthy c.program
        | none => false) then 1 else 0) +
  (if strTruthy p.taxpayerType && strTruthy c.taxpayerType then 1 else 0)

/-- A string-to-number conversion that maps every string to `NaN` (one concrete
instance of the `Number` behaviour, used to evaluate the embedding). -/
def convNaN : String → JsNum := fun _ => .nan

/-- A concrete resolution environment: metadata exposes a single `tax_year`
column and the sample query fails. -/
def envYearOnly : ResolveEnv :=
  { metadataResult := .ok (some [{ fieldName := some "tax_year", name := none }])
    sampleResult := .error () }

/-- The column map `envYearOnly` resolves to. -/
def mapYearOnly : ColumnMap :=
  { year := "tax_year", claimed := none, used := none, program := none, taxpayerType := none }

/-- A concrete fully-resolved column map. -/
def cMapConcrete : ColumnMap :=
  { year := "tax_year", claimed := some "amount_claimed", used := some "amount_used"
    program := some "program_name", taxpayerType := some "taxpayer_type" }

/-- Concrete grouped-query input rows: programs A, B and a null program. -/
def rowsABC : List (Option String × ℚ) :=
  [(some "A", 500), (some "B", 700), (none, 100)]

/-- Concrete parsed parameters carrying only a program filter. -/
def pProgOnly : ParsedParams :=
  { yearFrom := none, yearTo := none, program := some ["X"], taxpayerType := none
    view := "agg", format := "json" }

theorem toNumber_isFinite (conv : String → JsNum) (v : JsValue) :
    toNumber conv v = .finite (toNumberQ conv v) := by
  cases v <;> simp only [toNumber, toNumberQ] <;>
    first
      | rfl
      | (cases h : jsNumberOf conv _ <;> simp [h])

/-- C2: every computed record — each raw normalized row, each yearly aggregate,
and the grand totals — carries `utilizationPct = used / claimed * 100` when its
`claimed` is nonzero and `utilizationPct = 0` when `claimed = 0`. -/
theorem claim2_utilization_of_records :
    (∀ conv yearStr cv uv,
      (mkYearlyRow conv yearStr cv uv).utilizationPct =
        (if (mkYearlyRow conv yearStr cv uv).claimed = 0 then 0
          else (mkYearlyRow conv yearStr cv uv).used /
            (mkYearlyRow conv yearStr cv uv).claimed * 100)) ∧
    (∀ conv cv uv,
      (mkRawRow conv cv uv).utilizationPct =
        (if (mkRawRow conv cv uv).claimed = 0 then 0
          else (mkRawRow conv cv uv).used / (mkRawRow conv cv uv).claimed * 100)) ∧
    (∀ yearly,
      (mkTotals yearly).utilizationPct =
        (if (mkTotals yearly).claimed = 0 then 0
          else (mkTotals yearly).used / (mkTotals yearly).claimed * 100)) := by
  refine ⟨?_, ?_, ?_⟩ <;> intros <;>
    simp only [mkYearlyRow, mkRawRow, mkTotals, computeUtilization]

/-- C4 counterexample: the numeric coercion is not non-negative — the finite
negative number `-5` passes through `toNumber` unchanged. -/
theorem claim4_counterexample_negative :
    toNumber convNaN (.num (.finite (-5))) = .finite (-5) ∧ ((-5 : ℚ) < 0) := by
  constructor
  · rfl
  · norm_num

/-- C4 (amended): for every input value (including null, undefined and
non-numeric strings) `toNumber` produces a finite number — never `NaN` or an
infinity — with null, undefined and non-finite conversions coerced to `0`, and
a finite conversion passed through unchanged (so a negative finite input stays
negative). -/
theorem claim4_coercion_always_finite :
    ∀ (conv : String → JsNum) (v : JsValue),
      toNumber conv v = .finite (toNumberQ conv v) ∧
      toNumber conv .null = .finite 0 ∧
      toNumber conv .undefined = .finite 0 ∧
      ((jsNumberOf conv v).isFiniteJs = false → toNumber conv v = .finite 0) ∧
      ((jsNumberOf conv v).isFiniteJs = true → v ≠ .null → v ≠ .undefined →
        toNumber conv v = jsNumberOf conv v) := by
  intro conv v
  refine ⟨toNumber_isFinite conv v, rfl, rfl, ?_, ?_⟩
  · intro h
    cases v <;> simp only [toNumber] <;>
      first
        | rfl
        | (cases hj : jsNumberOf conv _ <;> simp_all [JsNum.isFiniteJs])
  · intro h h1 h2
    cases v <;> simp_all only [toNumber, ne_eq] <;>
      first
        | rfl
        | (cases hj : jsNumberOf conv _ <;> simp_all [JsNum.isFiniteJs])

/-- C4 witness: `toNumber` at the non-numeric string `"abc"` (converted to
`NaN`) coerces to `0`. -/
theorem claim4_witness : toNumber convNaN (.str "abc") = .finite 0 :=
  (claim4_coercion_always_finite convNaN (.str "abc")).2.2.2.1 rfl

theorem yearLoop_eq_range (n : Nat) :
    ∀ lo hi : Int, (hi + 1 - lo).toNat = n →
      yearLoop lo hi = (List.range n).map (fun i : Nat => lo + (i : Int)) := by
  induction n with
  | zero =>
    intro lo hi h
    have hlt : lo > hi := by omega
    rw [yearLoop, if_pos hlt]
    simp
  | succ n ih =>
    intro lo hi h
    have hle : ¬ lo > hi := by omega
    rw [yearLoop, if_neg hle, ih (lo + 1) hi (by omega), List.range_succ_eq_map,
      List.map_cons, List.map_map]
    refine congrArg₂ List.cons (by simp) ?_
    apply List.map_congr_left
    intro i _
    simp only [Function.comp_apply, Nat.succ_eq_add_one]
    push_cast
    ring

/-- C5: `meta.years` is exactly the contiguous integer range from the minimum
to the maximum finite observed year (inclusive), and is empty when no finite
year is observed. -/
theorem claim5_meta_years_contiguous :
    ∀ yearValues : List (Option Int), metaYears yearValues = specYearRange yearValues := by
  intro yearValues
  unfold metaYears specYearRange
  cases h : yearValues.filterMap id with
  | nil => rfl
  | cons y rest =>
    exact yearLoop_eq_range _ _ _ rfl

theorem dupQuotes_count (l : List Char) :
    (l.flatMap (fun c => if c = dq then [c, c] else [c])).count dq = 2 * l.count dq := by
  induction l with
  | nil => simp
  | cons c t ih =>
    by_cases h : c = dq <;>
      (simp [List.count_append, List.count_cons, h, ih]; try omega)

/-- C7: the CSV output begins with the fixed header line
`year,program,claimed,used,taxpayer_type`; a field whose string form contains a
comma or a double quote is wrapped in double quotes with each internal double
quote doubled, any other field is emitted verbatim, and a null/undefined field
is empty. -/
theorem claim7_csv_serialization :
    (∀ rows, ∃ rest, csvContent rows = csvHeader ++ rest) ∧
    (∀ s, (hasChar s ',' || hasChar s dq) = true →
      csvField (some s) = dqS ++ dupQuotes s ++ dqS) ∧
    (∀ s, (hasChar s ',' || hasChar s dq) = false → csvField (some s) = s) ∧
    (∀ s, (dupQuotes s).data.count dq = 2 * s.data.count dq) ∧
    csvField none = "" := by
  refine ⟨?_, ?_, ?_, ?_, rfl⟩
  · intro rows
    cases rows with
    | nil => exact ⟨"", by simp [csvContent, csvLines, joinWith]⟩
    | cons r rs =>
      refine ⟨"\n" ++ joinWith "\n" ((r :: rs).map csvLineOf), ?_⟩
      show csvHeader ++ "\n" ++ joinWith "\n" ((r :: rs).map csvLineOf) = _
      rw [String.append_assoc]
  · intro s h
    simp [csvField, h]
  · intro s h
    simp [csvField, h]
  · intro s
    exact dupQuotes_count s.data

/-- C7 witness: the spec's example program name, which contains a comma but no
quote, is surrounded by double quotes with its content unchanged. -/
theorem claim7_witness :
    csvField (some "Film, TV & Theatrical") = dqS ++ dupQuotes "Film, TV & Theatrical" ++ dqS :=
  claim7_csv_serialization.2.1 "Film, TV & Theatrical" (by decide)

/-- C9: column resolution is memoized — a call with a populated cache returns
the cached mapping with no upstream requests and leaves the cache unchanged,
and after a first successful resolution every later call (under any upstream
environment) returns the identical mapping, issues no requests, and never
mutates the cache. -/
theorem claim9_column_map_memoized :
    (∀ (m : ColumnMap) (env : ResolveEnv), getColumnMap (some m) env = (.ok m, some m, 0)) ∧
    (∀ (env : ResolveEnv) (m : ColumnMap) (c : Option ColumnMap) (k : Nat),
      getColumnMap none env = (.ok m, c, k) →
        c = some m ∧ ∀ env2 : ResolveEnv, getColumnMap (some m) env2 = (.ok m, some m, 0)) := by
  constructor
  · intro m env
    rfl
  · intro env m c k h
    simp only [getColumnMap] at h
    rcases hres : resolveColumnMap env with e | m'
    · rw [hres] at h
      simp at h
    · rw [hres] at h
      simp only [Prod.mk.injEq, Except.ok.injEq] at h
      obtain ⟨h1, h2, _⟩ := h
      subst h1
      exact ⟨h2.symm, fun env2 => rfl⟩

/-- C9 witness: resolving against a concrete metadata response caches the
resolved map, and later calls return it untouched with zero requests. -/
theorem claim9_witness :
    (some mapYearOnly : Option ColumnMap) = some mapYearOnly ∧
      ∀ env2 : ResolveEnv, getColumnMap (some mapYearOnly) env2 =
        (.ok mapYearOnly, some mapYearOnly, 0) :=
  claim9_column_map_memoized.2 envYearOnly mapYearOnly (some mapYearOnly) 2 rfl

/-- C1: when the primary request fails with HTTP 401/403 and no token is
configured, `socrataQuery` attempts the fallback endpoint (and succeeds when it
does); on a non-auth HTTP status, or on 401/403 with a token configured, the
error is surfaced immediately — annotated with the status and independent of
the fallback outcome — and when the fallback also fails the combined message
names both statuses. -/
theorem claim1_fallback_policy :
    (∀ (e : HttpErr) (fb : Except HttpErr Unit), (e.status = 401 ∨ e.status = 403) →
      (socrataQuery false (.error e) fb).2 = true ∧
      (∀ v, fb = .ok v → (socrataQuery false (.error e) fb).1 = .ok v)) ∧
    (∀ (ht : Bool) (e : HttpErr) (fb : Except HttpErr Unit),
      e.status ≠ 0 → e.status ≠ 401 → e.status ≠ 403 →
      socrataQuery ht (.error e) fb =
        (.error ("Socrata request failed (" ++ toString e.status ++ "): " ++ e.message),
          false)) ∧
    (∀ (e : HttpErr) (fb : Except HttpErr Unit), (e.status = 401 ∨ e.status = 403) →
      socrataQuery true (.error e) fb =
        (.error ("Socrata request failed (" ++ toString e.status ++ "): " ++ e.message),
          false)) ∧
    (∀ (e fe : HttpErr), (e.status = 401 ∨ e.status = 403) →
      (socrataQuery false (.error e) (.error fe : Except HttpErr Unit)).1 =
        .error ("Socrata request failed (" ++ toString e.status ++
          ") without an app token and fallback query failed (" ++ toString fe.status ++
          "): " ++ fe.message)) := by
  refine ⟨?_, ?_, ?_, ?_⟩
  · intro e fb h
    have h0 : e.status ≠ 0 := by rcases h with h | h <;> omega
    rcases h with h | h <;>
      (constructor
       · cases fb <;> simp [socrataQuery, h, h0]
       · intro v hv; subst hv; simp [socrataQuery, h, h0])
  · intro ht e fb h0 h1 h3
    simp [socrataQuery, h0, h1, h3]
  · intro e fb h
    rcases h with h | h <;> simp [socrataQuery, h]
  · intro e fe h
    have h0 : e.status ≠ 0 := by rcases h with h | h <;> omega
    rcases h with h | h <;> simp [socrataQuery, h, h0]

/-- C1 witness: a 403 primary failure without a token attempts the fallback,
and when the fallback fails with 500 the surfaced message names 403 and 500. -/
theorem claim1_witness :
    (socrataQuery false (.error ⟨403, "forbidden"⟩)
        (.error ⟨500, "boom"⟩ : Except HttpErr Unit)).2 = true ∧
      (socrataQuery false (.error ⟨403, "forbidden"⟩)
          (.error ⟨500, "boom"⟩ : Except HttpErr Unit)).1 =
        .error ("Socrata request failed (403) without an app token and fallback query failed (500): boom") :=
  ⟨(claim1_fallback_policy.1 ⟨403, "forbidden"⟩ (.error ⟨500, "boom"⟩) (Or.inr rfl)).1,
    by
      have := claim1_fallback_policy.2.2.2 ⟨403, "forbidden"⟩ ⟨500, "boom"⟩ (Or.inr rfl)
      simpa using this⟩

theorem sqEscaped_sanitize (l : List Char) :
    sqEscaped (l.flatMap (fun c => if c = sq then [c, c] else [c])) = true := by
  unfold sqEscaped
  induction l with
  | nil => rfl
  | cons c t ih =>
    have hd : (c :: t).flatMap (fun c => if c = sq then [c, c] else [c]) =
        (if c = sq then [c, c] else [c]) ++
          t.flatMap (fun c => if c = sq then [c, c] else [c]) := rfl
    rw [hd]
    by_cases h : c = sq
    · subst h
      simp only [if_pos rfl, List.cons_append, List.nil_append]
      simp [sqEscapedAux, ih]
    · simp only [if_neg h, List.cons_append, List.nil_append]
      simp [sqEscapedAux, h, ih]

/-- C8: `buildWhere` emits exactly one clause per active filter, joined by
`AND` (empty when no filter is active); a filter whose column is unresolved is
silently dropped; string literals have their embedded quotes doubled; and the
year bounds are inclusive comparisons against the resolved year column. -/
theorem claim8_where_builder :
    (∀ p c, (buildWhereClauses p c).length = specActiveCount p c) ∧
    (∀ p c, buildWhere p c =
      (if buildWhereClauses p c = [] then ""
        else "WHERE " ++ joinWith " AND " (buildWhereClauses p c))) ∧
    (∀ p c, strTruthy c.program = false →
      buildWhereClauses p c = buildWhereClauses { p with program := none } c) ∧
    (∀ p c, strTruthy c.taxpayerType = false →
      buildWhereClauses p c = buildWhereClauses { p with taxpayerType := none } c) ∧
    (∀ c v f, buildWhere ⟨none, none, none, none, v, f⟩ c = "") ∧
    (∀ s, sqEscaped (sanitizeValue s).data = true) ∧
    (∀ p c yf, p.yearFrom = some yf →
      (buildWhereClauses p c).head? =
        some (dqS ++ c.year ++ dqS ++ " >= " ++ showYearBound yf)) := by
  refine ⟨?_, ?_, ?_, ?_, ?_, ?_, ?_⟩
  · intro p c
    rcases p with ⟨yf, yt, pr, tt, v, f⟩
    cases yf <;> cases yt <;> cases pr <;>
      (simp only [buildWhereClauses, specActiveCount, List.length_append];
        split_ifs <;> simp_all)
  · intro p c
    cases h : buildWhereClauses p c <;> simp [buildWhere, h]
  · intro p c h
    rcases p with ⟨yf, yt, pr, tt, v, f⟩
    cases pr <;> simp [buildWhereClauses, h]
  · intro p c h
    rcases p with ⟨yf, yt, pr, tt, v, f⟩
    simp only [buildWhereClauses, h, Bool.and_false]
    rfl
  · intro c v f
    rfl
  · intro s
    exact sqEscaped_sanitize s.data
  · intro p c yf h
    rcases p with ⟨yf', yt, pr, tt, v, f⟩
    cases h
    simp [buildWhereClauses]

/-- C8 witness: with an unresolved program column, a request carrying only a
program filter produces the same (empty) clause list as one with no program
filter at all. -/
theorem claim8_witness :
    buildWhereClauses pProgOnly mapYearOnly =
      buildWhereClauses { pProgOnly with program := none } mapYearOnly :=
  claim8_where_builder.2.2.1 pProgOnly mapYearOnly rfl

/-- C10: a non-empty, non-numeric `year_from` parameter parses to a `NaN` year
bound (not `undefined`), and `buildWhere` still emits a year comparison clause
containing the text `NaN` instead of dropping the filter or failing. -/
theorem claim10_nan_year_clause :
    (parseSearchParams (some "abc") none none none none none).yearFrom = some none ∧
    buildWhere (parseSearchParams (some "abc") none none none none none) cMapConcrete =
      "WHERE " ++ dqS ++ "tax_year" ++ dqS ++ " >= NaN" := by
  constructor
  · rfl
  · rfl

/-- C3: resolution errors exactly when the year role is still unresolved after
the metadata pass and the sample fallback; the other four roles may all stay
unresolved without an error; and downstream query construction replaces an
unresolved claimed/used column by the literal `0` and an unresolved
program/taxpayer column by `NULL`. -/
theorem claim3_only_year_is_fatal :
    (∀ env : ResolveEnv,
      exceptOk (resolveColumnMap env) = decide (specYearAfterFallback env ≠ "")) ∧
    (resolveColumnMap envYearOnly = .ok mapYearOnly ∧
      mapYearOnly.claimed = none ∧ mapYearOnly.used = none ∧
      mapYearOnly.program = none ∧ mapYearOnly.taxpayerType = none) ∧
    (∀ y : String,
      buildRawSelect ⟨y, none, none, none, none⟩ =
        "SELECT " ++ dqS ++ y ++ dqS ++ " AS year, " ++ "NULL" ++ " AS program, " ++
          "0" ++ " AS claimed, " ++ "0" ++ " AS used, " ++ "NULL" ++ " AS taxpayer_type" ∧
      aggExpr none = "0") := by
  refine ⟨?_, ⟨rfl, rfl, rfl, rfl, rfl⟩, ?_⟩
  · intro env
    unfold resolveColumnMap resolvedMap specYearAfterFallback
    by_cases hy : (metadataPass env).year = ""
    · have hnf : needsFallback (metadataPass env) = true := by
        simp [needsFallback, hy]
      rcases hs : env.sampleResult with e | keys
      · simp [hnf, hs, applyFallback, hy, exceptOk]
      · simp only [hnf, if_true, applyFallback, hs, hy, ne_eq, not_true_eq_false,
          if_false, ite_not]
        by_cases hk : (findColumnFromKeys yearTest keys).getD "" = "" <;>
          simp [hk, exceptOk, hy]
    · have hy' : ((metadataPass env).year = "") = False := by simp [hy]
      by_cases hnf : needsFallback (metadataPass env) = true
      · rcases hs : env.sampleResult with e | keys
        · simp [hnf, hs, applyFallback, hy, exceptOk]
        · simp [hnf, hs, applyFallback, hy, exceptOk]
      · simp only [Bool.not_eq_true] at hnf
        simp [hnf, hy, exceptOk]
  · intro y
    exact ⟨rfl, rfl⟩

theorem entriesFrom_idx_ge (rows : List (Option String × ℚ)) :
    ∀ (ks : List (Option String)) (i : Nat) (e : PEntry),
      e ∈ entriesFrom rows i ks → i ≤ e.idx := by
  intro ks
  induction ks with
  | nil => intro i e h; simp [entriesFrom] at h
  | cons k t ih =>
    intro i e h
    rw [entriesFrom] at h
    rcases List.mem_cons.mp h with h | h
    · subst h; exact Nat.le_refl i
    · exact Nat.le_of_succ_le (ih (i + 1) e h)

theorem entriesFrom_idx_lt (rows : List (Option String × ℚ)) :
    ∀ (ks : List (Option String)) (i : Nat),
      List.Pairwise (fun a b : PEntry => a.idx < b.idx) (entriesFrom rows i ks) := by
  intro ks
  induction ks with
  | nil => intro i; exact List.Pairwise.nil
  | cons k t ih =>
    intro i
    rw [entriesFrom]
    refine List.Pairwise.cons ?_ (ih (i + 1))
    intro e he
    exact Nat.lt_of_lt_of_le (Nat.lt_succ_self i) (entriesFrom_idx_ge rows t (i + 1) e he)

/-- C6: the `topPrograms` list has at most 10 entries, its claimed sums are
non-increasing, groups with equal claimed sums keep their first-encounter
order, and a ranked group with no program value is labelled `"Unknown"` (a
present program value is passed through unchanged). -/
theorem claim6_top_programs :
    ∀ rows : List (Option String × ℚ),
      (topProgramsOut rows).length ≤ 10 ∧
      List.Pairwise (fun a b : ProgramTotal => b.claimed ≤ a.claimed) (topProgramsOut rows) ∧
      List.Pairwise (fun a b : PEntry => a.claimed = b.claimed → a.idx < b.idx)
        (rankPrograms rows) ∧
      programLabel none = "Unknown" ∧ (∀ s, programLabel (some s) = s) := by
  intro rows
  have hsorted : List.Pairwise rankLE (List.insertionSort rankLE (groupPrograms rows)) :=
    List.sorted_insertionSort rankLE (groupPrograms rows)
  have htake : List.Pairwise rankLE (rankPrograms rows) :=
    hsorted.sublist (List.take_sublist 10 _)
  have hlt : List.Pairwise (fun a b : PEntry => a.idx < b.idx) (groupPrograms rows) :=
    entriesFrom_idx_lt rows (keysInOrder rows) 0
  have hne : List.Pairwise (fun a b : PEntry => a.idx ≠ b.idx) (groupPrograms rows) :=
    hlt.imp (fun h => Nat.ne_of_lt h)
  have hperm : List.Perm (List.insertionSort rankLE (groupPrograms rows))
      (groupPrograms rows) := List.perm_insertionSort rankLE (groupPrograms rows)
  have hne2 : List.Pairwise (fun a b : PEntry => a.idx ≠ b.idx)
      (List.insertionSort rankLE (groupPrograms rows)) :=
    (hperm.pairwise_iff (fun h => (Ne.symm h))).mpr hne
  have hne3 : List.Pairwise (fun a b : PEntry => a.idx ≠ b.idx) (rankPrograms rows) :=
    hne2.sublist (List.take_sublist 10 _)
  refine ⟨?_, ?_, ?_, rfl, fun s => rfl⟩
  · unfold topProgramsOut rankPrograms
    rw [List.length_map]
    simp [List.length_take]
  · unfold topProgramsOut
    refine List.pairwise_map.mpr (htake.imp ?_)
    intro a b hab
    rcases hab with h | ⟨h, _⟩
    · exact le_of_lt h
    · exact le_of_eq h.symm
  · refine (htake.and hne3).imp ?_
    intro a b ⟨hr, hne⟩ heq
    rcases hr with h | ⟨_, hle⟩
    · rw [heq] at h
      exact absurd h (lt_irrefl _)
    · exact Nat.lt_of_le_of_ne hle hne

/-- C6 witness: for the spec's example input (A=500, B=700, null=100) the
output is at most 10 long and the null-program group is labelled `"Unknown"`. -/
theorem claim6_witness :
    (topProgramsOut rowsABC).length ≤ 10 ∧ programLabel none = "Unknown" :=
  ⟨(claim6_top_programs rowsABC).1, (claim6_top_programs rowsABC).2.2.2.1⟩

end NYCredits
